import Mathlib

/-!
Shallow embedding of the reconnaissance engine of `website_scanner`
(`src/scanner.py`, with its web front-end `src/main.py` out of scope).

Modelling conventions:
* Python dict Findings `{'type', 'host', 'details', 'status'}` become the
  `Finding` structure with the same four string fields.
* Network effects are inputs: an HTTP request's outcome, the per-port TCP
  connect outcomes, and the TLS inspection outcome are data handed to the
  embedded functions, so that each function is a pure map from those
  outcomes to the value the Python function returns.
* Exceptions are values: a function body that swallows an exception and
  returns `None` (the `safe_execution` decorator) is embedded as returning
  `none`.
* `BeautifulSoup(...).title` is `Option (Option String)`: `none` when the
  document has no `title` tag, `some none` when the tag exists but its
  `.string` attribute is `None` (empty tag or nested markup), and
  `some (some s)` when `.string` is the string `s`.
* `str.lower` is modelled as per-character `Char.toLower` (ASCII folding);
  no theorem below depends on non-ASCII case folding.
-/

namespace WebsiteScanner

/-- A result record, as built throughout `scanner.py`:
`{'type': ..., 'host': ..., 'details': ..., 'status': ...}`. -/
structure Finding where
  type : String
  host : String
  details : String
  status : String
deriving DecidableEq, Repr

/-- `pattern in text` for Python strings, on character lists:
`needle` occurs contiguously in `hay` (the empty needle always occurs). -/
def substrIn (needle : List Char) : List Char → Bool
  | [] => needle.isEmpty
  | c :: t => needle.isPrefixOf (c :: t) || substrIn needle t

/-- Python `str.lower`, restricted to ASCII folding. -/
def lowerL (l : List Char) : List Char := l.map Char.toLower

/-! ## `clean_url` (scanner.py lines 35-38)

`clean_url(url)` is `urlparse(url)` followed by `parsed.netloc or
parsed.path`.  We embed the scheme/netloc/path extraction of CPython's
`urllib.parse.urlsplit`: strip a leading `scheme:` when everything before
the first `:` is a valid scheme (first char an ASCII letter, the rest
ASCII alphanumerics or `+`/`-`/`.`); take the netloc after a leading `//`
up to the first `/`, `?` or `#`; then drop a `#`-fragment and a
`?`-query from the remainder, leaving the path.  (The stdlib's removal of
ASCII tab/newline/control characters and its bracket validation for IPv6
netlocs are omitted; no theorem below feeds such characters in.  The
`@lru_cache` wrapper is value-transparent on a pure function.) -/

/-- A character CPython's `urlsplit` accepts inside a URL scheme. -/
def schemeChar (c : Char) : Bool := c.isAlphanum || c == '+' || c == '-' || c == '.'

/-- Split a list at the first occurrence of `c` (the occurrence removed);
`none` when `c` does not occur. -/
def splitAtFirst (c : Char) : List Char → Option (List Char × List Char)
  | [] => none
  | x :: t =>
    if x == c then some ([], t)
    else (splitAtFirst c t).map (fun p => (x :: p.1, p.2))

/-- `urlsplit`'s scheme removal: the part after `scheme:` when the prefix
before the first `:` is a nonempty valid scheme, the input unchanged
otherwise. -/
def splitScheme (l : List Char) : List Char :=
  match splitAtFirst ':' l with
  | none => l
  | some (pre, post) =>
    match pre with
    | [] => l
    | c :: _ => if c.isAlpha && pre.all schemeChar then post else l

/-- A character ending the netloc component (`/`, `?` or `#`). -/
def netlocStop (c : Char) : Bool := c == '/' || c == '?' || c == '#'

/-- `urlsplit`'s netloc extraction: when the (scheme-stripped) URL starts
with `//`, the netloc runs up to the first `/`, `?` or `#`; otherwise the
netloc is empty. Returns `(netloc, remainder)`. -/
def parseNetlocPath (l : List Char) : List Char × List Char :=
  match l with
  | a :: b :: rest =>
    if a == '/' && b == '/' then
      (rest.takeWhile (fun c => !netlocStop c), rest.dropWhile (fun c => !netlocStop c))
    else ([], l)
  | _ => ([], l)

/-- `clean_url` on character lists: `parsed.netloc or parsed.path`. -/
def clean_url_chars (l : List Char) : List Char :=
  let rest := splitScheme l
  let np := parseNetlocPath rest
  let path := (np.2.takeWhile (fun c => c != '#')).takeWhile (fun c => c != '?')
  if np.1.isEmpty then path else np.1

/-- `clean_url` (scanner.py lines 35-38). -/
def clean_url (s : String) : String := ⟨clean_url_chars s.data⟩

/-! ## `check_url` (scanner.py lines 71-130) -/

/-- The observable part of a `requests.get` response used by `check_url`:
the status code, the parsed `<title>` element (see the module comment for
the `Option (Option String)` reading of `soup.title`), and the
`Location` header. -/
structure HttpResponse where
  statusCode : Nat
  titleTag : Option (Option String)
  locationHeader : Option String
deriving DecidableEq, Repr

/-- Outcome of `requests.get(url, timeout=5, allow_redirects=True)`:
either a response, or a raised `requests.exceptions.RequestException`
carrying the message that `check_url` interpolates. -/
inductive RequestOutcome where
  | success (r : HttpResponse)
  | failure (msg : String)
deriving DecidableEq, Repr

/-- `soup.title.string if soup.title else ""` followed by the uses of
`title.lower()`: no `title` tag gives `""`; a tag whose `.string` is
`None` makes `title.lower()` raise `AttributeError` (modelled `none`,
which `safe_execution` turns into a `None` result); otherwise the string. -/
def titleFromTag : Option (Option String) → Option String
  | none => some ""
  | some none => none
  | some (some s) => some s

/-- `response.headers.get('Location')` interpolated into an f-string:
Python renders a missing header as `"None"`. -/
def optionStr : Option String → String
  | some s => s
  | none => "None"

/-- The `interesting_patterns` list of the status-200 branch
(scanner.py lines 105-108). -/
def interesting_patterns_200 : List String :=
  ["admin", "войти | административный сайт django", "swagger ui", "api",
   "openapi", "documentation"]

/-- The body of `check_url` after a cache miss (scanner.py lines 76-130):
the classification of one request outcome.  `none` models the cases where
the Python call returns `None`: an unhandled status code falls off the end
of the function, and an `AttributeError` from `None.lower()` is swallowed
by `safe_execution`. -/
def check_url_compute (url host : String) (o : RequestOutcome) : Option Finding :=
  match o with
  | .failure e =>
    some ⟨"URL Check", host, "Error checking " ++ url ++ ": " ++ e, "ERROR"⟩
  | .success r =>
    if r.statusCode == 404 then
      match titleFromTag r.titleTag with
      | none => none
      | some title =>
        if substrIn "page not found".data (lowerL title.data) then
          some ⟨"URL Check", host, "Error 404 at " ++ url, "OPEN"⟩
        else
          some ⟨"URL Check", host, "Error 404 at " ++ url, "ERROR"⟩
    else if r.statusCode == 301 || r.statusCode == 302 then
      some ⟨"URL Check", host, "Redirected to " ++ optionStr r.locationHeader, "OPEN"⟩
    else if r.statusCode == 200 then
      match titleFromTag r.titleTag with
      | none => none
      | some title =>
        if interesting_patterns_200.any (fun p => substrIn p.data (lowerL title.data)) then
          some ⟨"URL Check", host, "Interesting page found at " ++ url ++ " -> " ++ title, "OPEN"⟩
        else
          some ⟨"URL Check", host,
            "Page available but not of special interest at " ++ url ++ " -> " ++ title, "WARNING"⟩
    else if 400 ≤ r.statusCode then
      some ⟨"URL Check", host,
        "Error accessing " ++ url ++ ", status code " ++ toString r.statusCode, "ERROR"⟩
    else
      none

/-- `check_url` with its cache made explicit (scanner.py lines 71-77).
The Python cache is the default-argument dict `cache={}`; we pass it as an
association list and return the (possibly updated) cache together with a
flag recording whether a network request was issued.  On a hit the cached
value is returned without a request; on a miss the request is made and the
result classified — the source never stores anything into `cache`, so the
returned cache is the one passed in. -/
def check_url (url host : String) (cache : List (String × Finding))
    (net : String → RequestOutcome) : Option Finding × List (String × Finding) × Bool :=
  match cache.lookup url with
  | some f => (some f, cache, false)
  | none => (check_url_compute url host (net url), cache, true)

/-! ## `check_ssl_expiry` (scanner.py lines 133-150) -/

/-- Outcome of the TLS inspection: on success, the rendered expiry
timestamp (`str(expiry_date)`), the expiry instant and the current instant
(`datetime.utcnow()`) in seconds; on failure, the exception message.  The
whole body sits in `try ... except Exception`, so every raised exception
lands in the `failure` case and `safe_execution` never sees one. -/
inductive SslOutcome where
  | success (expiryRepr : String) (expirySecs nowSecs : Int)
  | failure (msg : String)
deriving DecidableEq, Repr

/-- `(expiry_date - datetime.utcnow()).days`: Python's `timedelta.days`
floors, hence `Int.fdiv` by 86400. -/
def days_remaining (expirySecs nowSecs : Int) : Int :=
  (expirySecs - nowSecs).fdiv 86400

/-- `check_ssl_expiry` (scanner.py lines 133-150): total — both the
success branch and the catch-all `except Exception` branch return a
Finding, so the `safe_execution` wrapper never produces `None` here. -/
def check_ssl_expiry (o : SslOutcome) (host : String) : Finding :=
  match o with
  | .success repr e n =>
    ⟨"SSL Check", host,
      "SSL certificate expires on " ++ repr ++ ", " ++ toString (days_remaining e n)
        ++ " days remaining.",
      if days_remaining e n < 30 then "WARNING" else "OPEN"⟩
  | .failure e =>
    ⟨"SSL Check", host, "Error checking SSL certificate for " ++ host ++ ": " ++ e, "ERROR"⟩

/-! ## Port probing (scanner.py lines 41-68) -/

/-- The `common_ports` candidate list (scanner.py lines 43-44). -/
def common_ports : List Nat :=
  [443, 8080, 3000, 5000, 8000, 8081, 9000, 21, 22, 25, 53,
   110, 143, 3306, 5432, 27017, 6379, 4002]

/-- `check_ports_multithreaded` (scanner.py lines 41-57).  `connectOk p`
is the outcome of `check_single_port(host, p)` (`connect_ex == 0`, socket
errors already mapped to `False` inside `check_single_port`); `order` is
the sequence in which `concurrent.futures.as_completed` yields the 18
futures — some permutation of `common_ports` determined by thread timing.
The result is the list of open ports in completion order. -/
def check_ports_multithreaded (connectOk : Nat → Bool) (order : List Nat) : List Nat :=
  order.filter connectOk

/-! ## `check_api_docs` (scanner.py lines 153-179) -/

/-- The `possible_paths` candidate list (scanner.py lines 154-164). -/
def possible_paths : List String :=
  ["/admin", "/administrator", "/admin/login", "/admin/dashboard", "/backend",
   "/cms", "/panel", "/console", "/secure/admin", "/admin-panel",
   "/config", "/config.php", "/settings.php", "/install.php", "/config/settings",
   "/setup", "/installer",
   "/api/auth", "/api/login", "/api/logout", "/oauth/token", "/api/users", "/api/admin",
   "/keys", "/certificates", "/token", "/tokens", "/secrets", "/api/secrets",
   "/db", "/database", "/dump", "/logs", "/log", "/debug.log", "/access.log", "/error.log",
   "/user", "/users", "/user/profile", "/payment", "/checkout", "/cart", "/invoice",
   "/order", "/orders", "/transactions", "/api/docs", "/api/redoc", "/api/asas"]

/-- `check_api_docs` (scanner.py lines 153-179): for each candidate path,
probe the URL with the explicit port and the URL without it, appending the
non-`None` results in that order.  `check_url`'s cache is the module-level
default dict, which is provably never written (see
`check_url_never_caches`), so every call takes the miss path and equals
`check_url_compute` on the fresh request. -/
def check_api_docs (net : String → RequestOutcome) (host : String) (port : Nat) :
    List Finding :=
  possible_paths.flatMap fun path =>
    let url_with_port := "https://" ++ host ++ ":" ++ toString port ++ path
    let url_without_port := "https://" ++ host ++ path
    (check_url_compute url_with_port host (net url_with_port)).toList
      ++ (check_url_compute url_without_port host (net url_without_port)).toList

/-! ## `save_to_excel` (scanner.py lines 182-198) -/

/-- Whether a POSIX path string is absolute. -/
def startsWithSlash (s : String) : Bool :=
  match s.data with
  | '/' :: _ => true
  | _ => false

/-- `os.path.join('document', filename)` on POSIX: an absolute `filename`
discards the directory; otherwise the two parts are joined with `/`
(`'document'` has no trailing slash). -/
def posixJoin (dir filename : String) : String :=
  if startsWithSlash filename then filename else dir ++ "/" ++ filename

/-- The header row appended first (scanner.py line 190). -/
def header_row : List String := ["Type", "Host", "Details", "Status"]

/-- One spreadsheet row per Finding (scanner.py line 193). -/
def finding_row (f : Finding) : List String := [f.type, f.host, f.details, f.status]

/-- `save_to_excel` (scanner.py lines 182-198): returns the sequence of
rows appended to the worksheet and the full path handed to `wb.save` and
returned.  Directory creation and the actual file write are the
side-effects abstracted away; the input list is read-only. -/
def save_to_excel (results : List Finding) (filename : String) :
    List (List String) × String :=
  (header_row :: results.map finding_row, posixJoin "document" filename)

/-! ## `scanner` (scanner.py lines 201-232) -/

/-- One scan's environment: the per-port connect outcomes, the order in
which the port futures complete, the network's answer per URL, and the TLS
inspection outcome. -/
structure ScanEnv where
  connectOk : Nat → Bool
  portOrder : List Nat
  net : String → RequestOutcome
  ssl : SslOutcome

/-- `scanner` (scanner.py lines 201-232): normalize the host, collect open
ports and the TLS Finding, emit the single `Port Check`/ERROR Finding when
no port is open (otherwise classify every path on every open port), append
the TLS Finding (`if ssl_result:` always holds — `check_ssl_expiry`
returns a nonempty dict), and write the report.  Returns the result list
and the saved path. -/
def scanner (env : ScanEnv) (host0 : String) (output_filename : Option String := none) :
    List Finding × String :=
  let host := clean_url host0
  let open_ports := check_ports_multithreaded env.connectOk env.portOrder
  let ssl_result := check_ssl_expiry env.ssl host
  let results :=
    if open_ports.isEmpty then
      [⟨"Port Check", host, "No open ports found", "ERROR"⟩]
    else
      open_ports.flatMap fun port => check_api_docs env.net host port
  let results := results ++ [ssl_result]
  let fname := output_filename.getD (host ++ "_scan_results.xlsx")
  (results, (save_to_excel results fname).2)

/-! ## Helper lemmas -/

/-- The title extracted by `check_url`, with the absent tag collapsed to
`""`; meaningful whenever the extraction does not hit a null `.string`. -/
def titleOf (r : HttpResponse) : String := (titleFromTag r.titleTag).getD ""

theorem check_ssl_expiry_type (o : SslOutcome) (host : String) :
    (check_ssl_expiry o host).type = "SSL Check" := by
  cases o <;> rfl

theorem splitAtFirst_eq_none {c : Char} {l : List Char}
    (h : ∀ x ∈ l, (x == c) = false) : splitAtFirst c l = none := by
  induction l with
  | nil => rfl
  | cons x t ih =>
    have hx := h x (List.mem_cons_self x t)
    have ht := ih fun y hy => h y (List.mem_cons_of_mem x hy)
    simp [splitAtFirst, hx, ht]

/-- A character allowed in an already-normalized bare host name. -/
def bareHostChar (c : Char) : Bool := c.isAlphanum || c == '.' || c == '-'

theorem bareHost_not_char {l : List Char} (hall : ∀ x ∈ l, bareHostChar x = true)
    (c0 : Char) (hc0 : bareHostChar c0 = false) : ∀ x ∈ l, (x == c0) = false := by
  intro x hx
  cases hxe : x == c0 with
  | false => rfl
  | true =>
    have hb := hall x hx
    rw [eq_of_beq hxe, hc0] at hb
    exact absurd hb (by simp)

/-! ## Claim C9 — `clean_url` normalization -/

/-- C9, counterexample.  `clean_url` is not idempotent on every input:
`urlparse` reads the netloc `example.com:8080` back as the scheme
`example.com` followed by the path `8080` (`.` is a valid scheme
character), so re-normalizing a `host:port` result changes it. -/
theorem clean_url_not_idempotent_on_port :
    clean_url "https://example.com:8080/path" = "example.com:8080"
    ∧ clean_url (clean_url "https://example.com:8080/path") = "8080"
    ∧ clean_url (clean_url "https://example.com:8080/path")
        ≠ clean_url "https://example.com:8080/path" := by
  refine ⟨rfl, rfl, ?_⟩
  decide

/-- C9, amended.  `clean_url` fixes every already-normalized bare host
(nonempty, made of ASCII alphanumerics, dots and hyphens — in particular
no `:`), and `https://example.com/path` and `example.com` normalize to the
same host; but idempotence does not extend to every input, because a
normalized `host:port` re-parses as `scheme:path`
(see `clean_url_not_idempotent_on_port`). -/
theorem clean_url_bare_host_fixed (h : String)
    (hne : h.data ≠ []) (hall : ∀ c ∈ h.data, bareHostChar c = true) :
    clean_url h = h
    ∧ clean_url "https://example.com/path" = clean_url "example.com" := by
  refine ⟨?_, rfl⟩
  have hcolon := bareHost_not_char hall ':' (by decide)
  have h1 : splitScheme h.data = h.data := by
    unfold splitScheme
    rw [splitAtFirst_eq_none hcolon]
  have h2 : parseNetlocPath h.data = ([], h.data) := by
    cases hd : h.data with
    | nil => rfl
    | cons a t =>
      cases t with
      | nil => rfl
      | cons b t2 =>
        have ha : (a == '/') = false := by
          refine bareHost_not_char hall '/' (by decide) a ?_
          rw [hd]; exact List.mem_cons_self a _
        simp [parseNetlocPath, ha]
  have h3 : h.data.takeWhile (fun c => c != '#') = h.data := by
    refine List.takeWhile_eq_self_iff.mpr ?_
    intro x hx
    have := bareHost_not_char hall '#' (by decide) x hx
    simp [bne, this]
  have h4 : h.data.takeWhile (fun c => c != '?') = h.data := by
    refine List.takeWhile_eq_self_iff.mpr ?_
    intro x hx
    have := bareHost_not_char hall '?' (by decide) x hx
    simp [bne, this]
  have hc : clean_url_chars h.data = h.data := by
    simp only [clean_url_chars]
    rw [h1, h2]
    simpa using h3.symm ▸ h4.symm ▸ rfl
  exact congrArg String.mk hc

/-- C9, witness for `clean_url_bare_host_fixed` at the bare host
`example.com`. -/
theorem clean_url_bare_host_fixed_witness :
    ("example.com".data ≠ [] ∧ ∀ c ∈ "example.com".data, bareHostChar c = true)
    ∧ clean_url "example.com" = "example.com" :=
  ⟨⟨by decide, by decide⟩,
    (clean_url_bare_host_fixed "example.com" (by decide) (by decide)).1⟩

/-! ## Claim C2 — `check_url` status mapping -/

/-- C2, counterexample.  A 200 response whose `<title>` tag has a null
`.string` (empty tag or nested markup) makes `title.lower()` raise
`AttributeError`, which `safe_execution` converts to `None`: `check_url`
produces no Finding at all, where the claim demands a WARNING (or OPEN)
Finding for every 200 response. -/
theorem check_url_null_title_200_no_finding :
    check_url_compute "https://example.com/user" "example.com"
      (.success ⟨200, some none, none⟩) = none := rfl

/-- C2, amended.  The status mapping holds for every response whose title
extraction does not hit a `<title>` tag with a null `.string` (such a tag
aborts the check with no Finding, see
`check_url_null_title_200_no_finding`): 404 yields OPEN when the
(lower-cased) title contains "page not found" and ERROR otherwise; 301 and
302 yield OPEN with the `Location` target echoed in the detail; 200 yields
OPEN when the title matches one of the sensitive-page signatures in
`interesting_patterns_200` and WARNING otherwise; any other status
≥ 400 yields ERROR. -/
theorem check_url_status_mapping (url host : String) (r : HttpResponse)
    (hT : r.titleTag ≠ some none) :
    (r.statusCode = 404 →
      check_url_compute url host (.success r) =
        some ⟨"URL Check", host, "Error 404 at " ++ url,
          if substrIn "page not found".data (lowerL (titleOf r).data)
          then "OPEN" else "ERROR"⟩)
    ∧ (r.statusCode = 301 ∨ r.statusCode = 302 →
      check_url_compute url host (.success r) =
        some ⟨"URL Check", host, "Redirected to " ++ optionStr r.locationHeader, "OPEN"⟩)
    ∧ (r.statusCode = 200 →
      check_url_compute url host (.success r) =
        some (if interesting_patterns_200.any
                (fun p => substrIn p.data (lowerL (titleOf r).data))
          then ⟨"URL Check", host,
                 "Interesting page found at " ++ url ++ " -> " ++ titleOf r, "OPEN"⟩
          else ⟨"URL Check", host,
                 "Page available but not of special interest at " ++ url ++ " -> " ++ titleOf r,
                 "WARNING"⟩))
    ∧ (r.statusCode ≠ 404 → 400 ≤ r.statusCode →
      check_url_compute url host (.success r) =
        some ⟨"URL Check", host,
          "Error accessing " ++ url ++ ", status code " ++ toString r.statusCode, "ERROR"⟩) := by
  obtain ⟨sc, tt, loc⟩ := r
  have ht : titleFromTag tt = some (titleOf ⟨sc, tt, loc⟩) := by
    rcases tt with _ | (_ | s)
    · rfl
    · exact absurd rfl hT
    · rfl
  refine ⟨?_, ?_, ?_, ?_⟩
  · intro h404
    subst h404
    simp only [check_url_compute]
    rw [ht]
    simp only [beq_self_eq_true, if_true, eq_self_iff_true, reduceIte]
    split <;> simp
  · rintro (h3 | h3) <;> subst h3 <;>
      simp [check_url_compute]
  · intro h200
    subst h200
    simp only [check_url_compute]
    rw [ht]
    simp only [Nat.reduceBEq, Bool.false_eq_true, if_false, Bool.or_self, if_true]
    split <;> simp
  · intro hne h400
    simp only at hne h400
    have h1 : sc ≠ 301 := by omega
    have h2 : sc ≠ 302 := by omega
    have h3 : sc ≠ 200 := by omega
    simp [check_url_compute, hne, h1, h2, h3, h400]

/-- C2, witness for `check_url_status_mapping`: a 200 response titled
"Admin Login" is classified OPEN. -/
theorem check_url_status_mapping_witness :
    ((⟨200, some (some "Admin Login"), none⟩ : HttpResponse).titleTag ≠ some none)
    ∧ check_url_compute "https://example.com/admin" "example.com"
        (.success ⟨200, some (some "Admin Login"), none⟩) =
      some ⟨"URL Check", "example.com",
        "Interesting page found at https://example.com/admin -> Admin Login", "OPEN"⟩ := by
  refine ⟨by decide, ?_⟩
  have h := (check_url_status_mapping "https://example.com/admin" "example.com"
    ⟨200, some (some "Admin Login"), none⟩ (by decide)).2.2.1 rfl
  rw [h]
  rfl

/-! ## Claim C5 — unhandled status codes are silently skipped -/

/-- C5.  A response whose status code is not 404, 301, 302, 200 and is
below 400 falls off the end of `check_url` and produces no Finding. -/
theorem check_url_unhandled_status_skipped (url host : String) (r : HttpResponse)
    (h1 : r.statusCode ≠ 404) (h2 : r.statusCode ≠ 301) (h3 : r.statusCode ≠ 302)
    (h4 : r.statusCode ≠ 200) (h5 : r.statusCode < 400) :
    check_url_compute url host (.success r) = none := by
  obtain ⟨sc, tt, loc⟩ := r
  simp only at h1 h2 h3 h4 h5
  simp [check_url_compute, h1, h2, h3, h4, Nat.not_le.mpr h5]

/-- C5, witness: a 204 No Content response yields no Finding. -/
theorem check_url_unhandled_status_skipped_witness :
    ((204 : Nat) ≠ 404 ∧ (204 : Nat) < 400)
    ∧ check_url_compute "https://example.com/admin" "example.com"
        (.success ⟨204, none, none⟩) = none :=
  ⟨⟨by decide, by decide⟩,
    check_url_unhandled_status_skipped "https://example.com/admin" "example.com"
      ⟨204, none, none⟩ (by decide) (by decide) (by decide) (by decide) (by decide)⟩

/-! ## Claim C6 — malformed/absent titles -/

/-- C6.  The code contradicts the spec's `ParseError` policy here: a 404
response carrying a `<title>` tag whose `.string` is `None` (e.g. an empty
`<title></title>`) is not treated as an empty title — `title.lower()`
raises `AttributeError`, `safe_execution` swallows it, and the URL is
silently skipped with no Finding instead of the claimed ERROR Finding.
(An absent tag, by contrast, does become `""` via the `else ""` branch and
yields the claimed Finding.) -/
theorem check_url_null_title_404_skipped :
    check_url_compute "https://example.com/admin" "example.com"
      (.success ⟨404, some none, none⟩) = none
    ∧ check_url_compute "https://example.com/admin" "example.com"
        (.success ⟨404, none, none⟩) =
      some ⟨"URL Check", "example.com", "Error 404 at https://example.com/admin", "ERROR"⟩ :=
  ⟨rfl, rfl⟩

/-! ## Claim C3 — the URL result cache -/

/-- C3.  The cache is consulted but never populated: the body of
`check_url` contains no `cache[url] = ...`, so the returned cache always
equals the one passed in, and — starting from the (forever-empty) default
cache — a second call with an already-classified URL performs a second
network request instead of being served from the cache. -/
theorem check_url_cache_never_populated :
    (∀ url host cache net, (check_url url host cache net).2.1 = cache)
    ∧ ((check_url "https://example.com/admin" "example.com" []
          (fun _ => .failure "connection refused")).2.2 = true
        ∧ (check_url "https://example.com/admin" "example.com"
            (check_url "https://example.com/admin" "example.com" []
              (fun _ => .failure "connection refused")).2.1
            (fun _ => .failure "connection refused")).2.2 = true) := by
  constructor
  · intro url host cache net
    unfold check_url
    cases cache.lookup url <;> rfl
  · exact ⟨rfl, rfl⟩

/-! ## Claim C4 — TLS certificate classification -/

/-- C4.  For a successful TLS inspection the Finding's status is WARNING
exactly when `days_remaining < 30` (floored whole days, so negative —
already expired — included) and OPEN otherwise; every failure outcome
(connection, handshake or parse exception, all landing in the body's
catch-all `except Exception`) yields an ERROR Finding, never a propagated
exception — `check_ssl_expiry` is total. -/
theorem check_ssl_expiry_classification (o : SslOutcome) (host : String) :
    (check_ssl_expiry o host).status =
      (match o with
       | .success _ e n => if days_remaining e n < 30 then "WARNING" else "OPEN"
       | .failure _ => "ERROR")
    ∧ ((check_ssl_expiry o host).status = "WARNING" ↔
        ∃ repr e n, o = .success repr e n ∧ days_remaining e n < 30) := by
  cases o with
  | success repr e n =>
    refine ⟨rfl, ?_⟩
    by_cases hd : days_remaining e n < 30
    · exact ⟨fun _ => ⟨repr, e, n, rfl, hd⟩, fun _ => by simp [check_ssl_expiry, hd]⟩
    · constructor
      · intro hw
        rw [show (check_ssl_expiry (.success repr e n) host).status =
            (if days_remaining e n < 30 then "WARNING" else "OPEN") from rfl,
          if_neg hd] at hw
        exact absurd hw (by decide)
      · rintro ⟨repr', e', n', heq, hlt⟩
        obtain ⟨-, rfl, rfl⟩ := SslOutcome.success.inj heq
        exact absurd hlt hd
  | failure m =>
    refine ⟨rfl, ?_⟩
    constructor
    · intro hw
      exact absurd (show ("ERROR" : String) = "WARNING" from hw) (by decide)
    · rintro ⟨repr', e', n', heq, -⟩
      cases heq

/-! ## Claim C7 — the report writer -/

/-- C7, counterexample.  `os.path.join('document', filename)` discards the
directory when `filename` is absolute, so the claim's "under the fixed
output directory ... for every filename" fails: for `/tmp/results.xlsx`
the path written is `/tmp/results.xlsx`, which does not lie under
`document/`. -/
theorem save_to_excel_absolute_filename_escapes :
    (save_to_excel [] "/tmp/results.xlsx").2 = "/tmp/results.xlsx"
    ∧ (save_to_excel [] "/tmp/results.xlsx").2.data.take 9 ≠ "document/".data := by
  exact ⟨rfl, by decide⟩

/-- C7, amended.  The spreadsheet consists of the header row
`Type, Host, Details, Status` followed by exactly one row per Finding in
input order, and the input is not mutated (the rows are a pure function of
the Finding fields); the returned path is `document/<filename>` for every
relative filename, but an absolute filename escapes the output directory
(see `save_to_excel_absolute_filename_escapes`). -/
theorem save_to_excel_spec (results : List Finding) (filename : String) :
    (save_to_excel results filename).1.length = results.length + 1
    ∧ (save_to_excel results filename).1.head? = some header_row
    ∧ (∀ i : Nat, (save_to_excel results filename).1[i + 1]? =
        (results[i]?).map finding_row)
    ∧ (startsWithSlash filename = false →
        (save_to_excel results filename).2 = "document/" ++ filename) := by
  refine ⟨by simp [save_to_excel], rfl, ?_, ?_⟩
  · intro i
    simp [save_to_excel]
  · intro habs
    simp only [save_to_excel, posixJoin, habs, Bool.false_eq_true, if_false]
    rfl

/-- C7, witness for `save_to_excel_spec` at a one-Finding report and a
relative filename. -/
theorem save_to_excel_spec_witness :
    (startsWithSlash "scan.xlsx" = false)
    ∧ (save_to_excel [⟨"URL Check", "example.com", "d", "OPEN"⟩] "scan.xlsx").1[1]? =
        (([(⟨"URL Check", "example.com", "d", "OPEN"⟩ : Finding)])[0]?).map finding_row
    ∧ (save_to_excel [⟨"URL Check", "example.com", "d", "OPEN"⟩] "scan.xlsx").2 =
        "document/" ++ "scan.xlsx" :=
  ⟨rfl, (save_to_excel_spec _ _).2.2.1 0, (save_to_excel_spec _ _).2.2.2 rfl⟩

/-! ## Claim C8 — order/concurrency independence of port probing -/

/-- C8.  Membership in the open-port result is independent of the order in
which the 18 futures complete: for identical per-port connect outcomes,
any completion order (a permutation of `common_ports`, covering any worker
cap, 20 or 1) yields the same open-port set as the sequential order. -/
theorem check_ports_order_independent (connectOk : Nat → Bool) (order : List Nat)
    (hperm : order.Perm common_ports) :
    common_ports.length = 18
    ∧ ∀ p : Nat, p ∈ check_ports_multithreaded connectOk order ↔
        p ∈ check_ports_multithreaded connectOk common_ports :=
  ⟨rfl, fun p => (hperm.filter connectOk).mem_iff⟩

/-- C8, witness at the reversed completion order. -/
theorem check_ports_order_independent_witness :
    common_ports.reverse.Perm common_ports
    ∧ (443 ∈ check_ports_multithreaded (fun p => decide (p ≤ 1000)) common_ports.reverse ↔
        443 ∈ check_ports_multithreaded (fun p => decide (p ≤ 1000)) common_ports) :=
  ⟨common_ports.reverse_perm,
    (check_ports_order_independent _ _ common_ports.reverse_perm).2 443⟩

/-! ## Claim C1 — report for a host with no open ports -/

/-- C1, counterexample.  With zero reachable ports the report does not
contain exactly one Finding: the orchestrator always appends the SSL
Finding as well (`check_ssl_expiry` never returns `None`), so the report
has two Findings. -/
theorem scanner_zero_ports_two_findings :
    check_ports_multithreaded (fun _ => false) common_ports = []
    ∧ ((scanner ⟨fun _ => false, common_ports, fun _ => .failure "refused",
          .failure "handshake failed"⟩ "example.com").1).length = 2 :=
  ⟨rfl, rfl⟩

/-- C1, amended.  With zero reachable ports the report contains exactly
two Findings — the single `{Port Check, host, 'No open ports found',
ERROR}` Finding followed by the Certificate Inspector's Finding — and no
path classification occurs (no `URL Check` Finding appears). -/
theorem scanner_zero_ports_report (env : ScanEnv) (host0 : String)
    (fname : Option String)
    (hp : check_ports_multithreaded env.connectOk env.portOrder = []) :
    (scanner env host0 fname).1 =
      [⟨"Port Check", clean_url host0, "No open ports found", "ERROR"⟩,
       check_ssl_expiry env.ssl (clean_url host0)]
    ∧ ∀ f ∈ (scanner env host0 fname).1, f.type ≠ "URL Check" := by
  have hres : (scanner env host0 fname).1 =
      [⟨"Port Check", clean_url host0, "No open ports found", "ERROR"⟩,
       check_ssl_expiry env.ssl (clean_url host0)] := by
    simp [scanner, hp]
  refine ⟨hres, ?_⟩
  intro f hf
  rw [hres] at hf
  simp only [List.mem_cons, List.not_mem_nil, or_false] at hf
  rcases hf with rfl | rfl
  · intro hcon
    exact absurd (show ("Port Check" : String) = "URL Check" from hcon) (by decide)
  · intro hcon
    rw [check_ssl_expiry_type] at hcon
    exact absurd hcon (by decide)

/-- C1, witness for `scanner_zero_ports_report` at a concrete environment
where every port probe fails. -/
theorem scanner_zero_ports_report_witness :
    check_ports_multithreaded (fun _ => false) common_ports = []
    ∧ (scanner ⟨fun _ => false, common_ports, fun _ => .failure "refused",
          .failure "handshake failed"⟩ "example.com" none).1 =
      [⟨"Port Check", "example.com", "No open ports found", "ERROR"⟩,
       ⟨"SSL Check", "example.com",
         "Error checking SSL certificate for example.com: handshake failed", "ERROR"⟩] :=
  ⟨rfl,
    ((scanner_zero_ports_report
        ⟨fun _ => false, common_ports, fun _ => .failure "refused",
          .failure "handshake failed"⟩ "example.com" none rfl).1).trans rfl⟩

/-! ## Claim C10 — the SSL Finding is always present and last -/

/-- C10.  `check_ssl_expiry` is total (the catch-all `except Exception`
means `safe_execution` never turns its result into `None`), so every
scanner report is non-empty and ends with the SSL Check Finding. -/
theorem scanner_last_finding_is_ssl (env : ScanEnv) (host0 : String)
    (fname : Option String) :
    (scanner env host0 fname).1 ≠ []
    ∧ (scanner env host0 fname).1.getLast? =
        some (check_ssl_expiry env.ssl (clean_url host0))
    ∧ (check_ssl_expiry env.ssl (clean_url host0)).type = "SSL Check" := by
  refine ⟨?_, ?_, check_ssl_expiry_type env.ssl (clean_url host0)⟩
  · simp [scanner]
  · simp only [scanner]
    exact List.getLast?_concat _

end WebsiteScanner
